import Mathlib

/-!
Verification development for the clean_ioc dependency-injection container
(`clean_ioc/core.py`).

The definitions below are a shallow embedding of the resolution engine:
registrations, decorators, pre-configurations, the per-scope registry, the
lifetime-tiered instance cache, and the recursive graph builder
(`_Registration.build` / `Dependency.resolve` / `_ResolvingContext` /
`Scope` / `Container`).

Modelling conventions, stated once here and referenced from the individual
definitions:

* Python types are modelled by `Ty`: a plain class, a parameterized generic
  alias (carrying its origin), or a generic collection alias `list[T]`.
* Python objects are modelled by `Val`; Python truthiness by `Val.truthy`
  (`0`/`False` and empty collections are falsy, other objects truthy).
* The reflective parameter-introspection facility (`_get_arg_info` /
  `_set_up_dependencies`) is an external collaborator of the engine; the
  dependency list of a registration is therefore supplied as data
  (the reflection output) rather than recomputed.
* Registration/decorator/pre-configuration filters used by the claims are
  the library-provided ones (`default_registration_filter`, name filters);
  they are modelled by the executable `RegistrationFilter`. The node-filter
  arguments (`parent_node_filter`, `decorator_node_filter`) default to
  constant `True` in the source and are modelled as `Bool` constants.
* The dependency graph (`DependencyNode`) is modelled by fresh node ids,
  an append-only `child_log` of `add_child` events, and `DNode` records for
  cached nodes; `uuid4` registration ids are modelled by a registry counter.
* Generator/async activators, scope-teardown execution, finalizers,
  `DependencyContext`/`CurrentGraph` marker parameters, tags-based filters
  and the decorators' own extra constructor parameters are not exercised by
  any claim and are omitted; each omission is noted at the definition that
  makes it.
-/

namespace CleanIoc

/-- Lifespan enum, mirroring `Lifespan(IntEnum)`:
transient(0) < once_per_graph(1) < scoped(2) < singleton(3). -/
inductive Lifespan
  | transient
  | once_per_graph
  | scoped
  | singleton
deriving DecidableEq, BEq, Repr

/-- Numeric value of a lifespan, mirroring the IntEnum values. -/
def Lifespan.toNat : Lifespan → Nat
  | .transient => 0
  | .once_per_graph => 1
  | .scoped => 2
  | .singleton => 3

/-- IntEnum comparison `a <= b` used by the source (`lifespan <= Lifespan.scoped`,
`registration.lifespan >= Lifespan.once_per_graph`). -/
def Lifespan.le (a b : Lifespan) : Bool :=
  a.toNat ≤ b.toNat

/-- Service types as seen by the registry and the resolver.
`plain n` is an ordinary class; `generic origin arg` is a parameterized
generic alias (e.g. `A[int]`) whose `__origin__` is the class `origin`;
`listOf t` is a generic collection alias (`list[T]`), i.e. a service type
whose `__origin__` is in `GENERIC_COLLECTION_MAPPINGS`. -/
inductive Ty
  | plain (n : Nat)
  | generic (origin : Nat) (arg : Nat)
  | listOf (elem : Ty)
deriving DecidableEq, BEq, Repr

/-- Runtime values (Python objects) produced by activations:
a primitive (e.g. an int), a constructed object `obj ctor args`, a decorator
wrapper, or a resolved collection. -/
inductive Val
  | prim (n : Nat)
  | obj (ctor : Nat) (args : List Val)
  | wrap (dec : Nat) (inner : Val)
  | coll (elems : List Val)
deriving Repr

/-- Python truthiness of a value: `0` is falsy, empty collections are falsy,
constructed objects and wrappers are truthy. This is the notion tested by
`if cached_node := self._try_find_cached_node(...)` in `_Registration.build`. -/
def Val.truthy : Val → Bool
  | .prim n => n != 0
  | .obj _ _ => true
  | .wrap _ _ => true
  | .coll es => !es.isEmpty

/-- An implementation / factory, the construction source of a registration.
`mkObj c` models a class or factory whose activation by `FactoryActivator`
constructs `obj c` applied to the resolved dependencies; `const v` models
`constant(instance)` (used by `_Registry.register_instance`) and factories
returning a fixed object. -/
inductive Impl
  | mkObj (ctor : Nat)
  | const (v : Val)
deriving Repr

/-- `FactoryActivator.activate`: invoke the factory on the resolved
dependencies. (Generator/async activators are not exercised by the claims.) -/
def Impl.activate : Impl → List Val → Val
  | .mkObj c, args => .obj c args
  | .const v, _ => v

/-- Parameter value factories (`ParameterValueFactory`). `defaultFactory`
is `default_parameter_value_factory`, which returns the parameter's default
value; `constFactory v` models user-supplied factories that produce a fixed
value regardless of the default. The `EMPTY` sentinel is modelled by `none`. -/
inductive ValueFactory
  | defaultFactory
  | constFactory (v : Val)
deriving Repr

/-- Apply a value factory to the parameter's default value, as done at the
top of `Dependency.resolve`: `self.settings.value_factory(self.default_value, ctx)`.
(The `DependencyContext` argument is not inspected by the modelled factories.) -/
def ValueFactory.apply : ValueFactory → Option Val → Option Val
  | .defaultFactory, d => d
  | .constFactory v, _ => some v

/-- A tag attached to a registration (`Tag(name, value)`). -/
structure Tag where
  name : Nat
  value : Option Nat := none
deriving DecidableEq, Repr

/-- Executable registration filters. `default` is
`default_registration_filter` (`r.name is None`); `withName n` matches a
specific name; `anyName` accepts every registration; `byId i` matches on the
registration id (used by `resolve_from_registration_id`). -/
inductive RegistrationFilter
  | default
  | withName (n : Nat)
  | anyName
  | byId (i : Nat)
deriving Repr

/-- `DependencySettings`: per-parameter value factory and registration
filter. The `list_modifier` setting defaults to the identity
(`default_registration_list_modifier`) and no claim supplies a different
one, so it is not carried. -/
structure DependencySettings where
  value_factory : ValueFactory := .defaultFactory
  filter : RegistrationFilter := .default
deriving Repr

/-- One constructor parameter of an implementation (`Dependency`):
its name, the implementation declaring it (`parent_implementation`), the
declared service type, resolution settings, and the declared default value
(`EMPTY` = `none`, per `ArgInfo.__init__`). Whether the parameter is a
generic collection is derived from the service type (`listOf`), mirroring
`generic_collection_type`. -/
structure Dep where
  name : Nat
  parent_implementation : Nat
  service_type : Ty
  settings : DependencySettings := {}
  default_value : Option Val := none
deriving Repr

/-- A construction rule for a service type (`_Registration`). `deps` is the
output of the reflective `_set_up_dependencies` on the implementation,
supplied as data; `parent_node_filter` defaults to the constant-true
`default_parent_node_filter` and is modelled as the Bool it returns;
`has_scoped_teardown` records whether a `scoped_teardown` callback was
given (its body is never run by any claim). -/
structure Registration where
  id : Nat
  service_type : Ty
  impl : Impl
  lifespan : Lifespan
  name : Option Nat := none
  tags : List Tag := []
  parent_node_filter : Bool := true
  has_scoped_teardown : Bool := false
  deps : List Dep := []
deriving Repr

/-- Evaluate a registration filter on a registration, mirroring
`default_registration_filter` and the name/id lambdas used by the library. -/
def RegistrationFilter.eval : RegistrationFilter → Registration → Bool
  | .default, r => r.name == none
  | .withName n, r => r.name == some n
  | .anyName, _ => true
  | .byId i, r => r.id == i

/-- `_Registration.__init__`: the registration-time guard
`if scoped_teardown and not lifespan <= Lifespan.scoped: raise ValueError(...)`,
then the field assignments. Raising is modelled by `Except.error` carrying
the ValueError message. -/
def mkRegistration (id : Nat) (service_type : Ty) (impl : Impl)
    (lifespan : Lifespan) (name : Option Nat) (tags : List Tag)
    (parent_node_filter : Bool) (scoped_teardown : Bool) (deps : List Dep) :
    Except String Registration :=
  if scoped_teardown && !(Lifespan.le lifespan .scoped) then
    .error "Scoped teardowns can only be used with scoped and singleton lifestyles"
  else
    .ok { id := id, service_type := service_type, impl := impl,
          lifespan := lifespan, name := name, tags := tags,
          parent_node_filter := parent_node_filter,
          has_scoped_teardown := scoped_teardown, deps := deps }

/-- Whether `_Registration.__init__` accepts the given teardown/lifespan
combination (no exception raised). -/
def registrationAccepted (scoped_teardown : Bool) (lifespan : Lifespan) : Bool :=
  match mkRegistration 0 (.plain 0) (.mkObj 0) lifespan none [] true
      scoped_teardown [] with
  | .ok _ => true
  | .error _ => false

/-- A pre-configuration hook (`PreConfiguration`): `raises` says whether the
configuration function raises when invoked; `has_run` is the mutable
run-once flag; the registration filter defaults to
`default_registration_filter`. The hook's own constructor parameters are
empty in every claim and are not carried. -/
structure PreConfiguration where
  pcId : Nat
  raises : Bool := false
  continue_on_failure : Bool := false
  has_run : Bool := false
  registration_filter : RegistrationFilter := .default
deriving Repr

/-- A decorator rule (`Decorator`): applying it wraps the decorated
instance in `Val.wrap decorator_type`. The `decorated_arg` detection and
the decorator's extra constructor parameters are not exercised by any claim;
`decorated_node_filter` defaults to constant true and is modelled as the
Bool it returns. -/
structure Decorator where
  service_type : Ty
  decorator_type : Nat
  registration_filter : RegistrationFilter := .default
  decorated_node_filter : Bool := true
  position : Int := 0
deriving Repr

/-- `_DecoratorStore.sort_key`: `(decorator.position, -insert_index)`. -/
def decoratorSortKey (item : Nat × Decorator) : Int × Int :=
  (item.2.position, -(item.1 : Int))

/-- Lexicographic comparison of sort keys, the order used by Python's
`list.sort(key=...)`. Keys are distinct (insert indices are unique), so the
sorted order is uniquely determined. -/
def decoratorKeyLe (a b : Nat × Decorator) : Bool :=
  decide ((decoratorSortKey a).1 < (decoratorSortKey b).1) ||
    (decide ((decoratorSortKey a).1 = (decoratorSortKey b).1) &&
      decide ((decoratorSortKey a).2 ≤ (decoratorSortKey b).2))

/-- Insert an item into a key-sorted decorator list, keeping it sorted. -/
def insertByKey (x : Nat × Decorator) :
    List (Nat × Decorator) → List (Nat × Decorator)
  | [] => [x]
  | y :: ys => if decoratorKeyLe x y then x :: y :: ys else y :: insertByKey x ys

/-- Sort a decorator list ascending by `decoratorSortKey` (insertion sort);
since all keys are distinct this computes exactly the order produced by
`self._decorators.sort(key=self.sort_key)`. -/
def sortDecorators (l : List (Nat × Decorator)) : List (Nat × Decorator) :=
  l.foldr insertByKey []

/-- `_DecoratorStore`: decorators tagged with their insertion index, kept
sorted by `sort_key`; `next_index` is the insertion counter. -/
structure DecoratorStore where
  decorators : List (Nat × Decorator) := []
  next_index : Nat := 0
deriving Repr

/-- `_DecoratorStore.add_decorator`: append with the next insertion index,
then re-sort by `sort_key`. -/
def DecoratorStore.add_decorator (s : DecoratorStore) (d : Decorator) :
    DecoratorStore :=
  { decorators := sortDecorators (s.decorators ++ [(s.next_index, d)]),
    next_index := s.next_index + 1 }

/-- `_DecoratorStore.__iter__`: yield the decorators in sorted order. -/
def DecoratorStore.toList (s : DecoratorStore) : List Decorator :=
  s.decorators.map (·.2)

/-- Per-scope storage (`_Registry`): registrations, decorator stores and
pre-configurations indexed by service type, plus a counter supplying fresh
registration ids (modelling `uuid4`). The per-type deques with `appendleft`
are modelled by prepending to an association list, so the per-type order is
most-recently-registered first. -/
structure Registry where
  registrations : List (Ty × Registration) := []
  decorators : List (Ty × DecoratorStore) := []
  pre_configurations : List (Ty × PreConfiguration) := []
  next_reg_id : Nat := 0
deriving Repr

/-- `_Registry.get_registrations`: the deque for a service type, newest
first. -/
def Registry.get_registrations (reg : Registry) (t : Ty) : List Registration :=
  (reg.registrations.filter (fun p => p.1 == t)).map (·.2)

/-- `_Registry.get_decorators`: the decorator store for a service type
(`defaultdict` returns an empty store for unknown types). -/
def Registry.get_decorator_store (reg : Registry) (t : Ty) : DecoratorStore :=
  ((reg.decorators.find? (fun p => p.1 == t)).map (·.2)).getD {}

/-- `_Registry.get_pre_configurations`: the pre-configuration deque for a
service type, newest first. -/
def Registry.get_pre_configurations (reg : Registry) (t : Ty) :
    List PreConfiguration :=
  (reg.pre_configurations.filter (fun p => p.1 == t)).map (·.2)

/-- `_Registry.register_implementation`: build the registration (which may
raise) and prepend it under both the service type and the implementation
type. `implementation` is the class, so the stored impl is `Impl.mkObj`. -/
def Registry.register_implementation (reg : Registry) (service_type : Ty)
    (implementation : Nat) (deps : List Dep) (lifespan : Lifespan)
    (name : Option Nat) (scoped_teardown : Bool) : Except String Registry :=
  match mkRegistration reg.next_reg_id service_type (.mkObj implementation)
      lifespan name [] true scoped_teardown deps with
  | .error e => .error e
  | .ok r =>
    .ok { reg with
          registrations :=
            (service_type, r) :: (Ty.plain implementation, r) :: reg.registrations,
          next_reg_id := reg.next_reg_id + 1 }

/-- `_Registry.register_concrete`: the implementation is the service type
itself; prepend under the service type only. -/
def Registry.register_concrete (reg : Registry) (service_ctor : Nat)
    (deps : List Dep) (lifespan : Lifespan) (name : Option Nat)
    (scoped_teardown : Bool) : Except String Registry :=
  match mkRegistration reg.next_reg_id (.plain service_ctor)
      (.mkObj service_ctor) lifespan name [] true scoped_teardown deps with
  | .error e => .error e
  | .ok r =>
    .ok { reg with
          registrations := (.plain service_ctor, r) :: reg.registrations,
          next_reg_id := reg.next_reg_id + 1 }

/-- `_Registry.register_instance`: the implementation is
`constant(instance)`; the stored lifespan is
`lifespan if lifespan == Lifespan.singleton else Lifespan.scoped`;
prepend under the service type only. -/
def Registry.register_instance (reg : Registry) (service_type : Ty)
    (instance_val : Val) (lifespan : Lifespan) (name : Option Nat)
    (scoped_teardown : Bool) : Except String Registry :=
  let instance_lifespan :=
    if lifespan == Lifespan.singleton then lifespan else Lifespan.scoped
  match mkRegistration reg.next_reg_id service_type (.const instance_val)
      instance_lifespan name [] true scoped_teardown [] with
  | .error e => .error e
  | .ok r =>
    .ok { reg with
          registrations := (service_type, r) :: reg.registrations,
          next_reg_id := reg.next_reg_id + 1 }

/-- `_Registry.register_factory`: the implementation is the supplied
factory callable (the activator-class dispatch on generator/async factories
is not exercised by the claims); prepend under the service type only. -/
def Registry.register_factory (reg : Registry) (service_type : Ty)
    (factory : Impl) (deps : List Dep) (lifespan : Lifespan)
    (name : Option Nat) (scoped_teardown : Bool) : Except String Registry :=
  match mkRegistration reg.next_reg_id service_type factory lifespan name []
      true scoped_teardown deps with
  | .error e => .error e
  | .ok r =>
    .ok { reg with
          registrations := (service_type, r) :: reg.registrations,
          next_reg_id := reg.next_reg_id + 1 }

/-- `_Registry.register_decorator`: add to the service type's decorator
store (creating it on first use, as the `defaultdict` does). -/
def Registry.register_decorator (reg : Registry) (service_type : Ty)
    (decorator_type : Nat) (registration_filter : RegistrationFilter)
    (decorated_node_filter : Bool) (position : Int) : Registry :=
  let d : Decorator :=
    { service_type := service_type, decorator_type := decorator_type,
      registration_filter := registration_filter,
      decorated_node_filter := decorated_node_filter, position := position }
  let store := (reg.get_decorator_store service_type).add_decorator d
  { reg with
    decorators :=
      (service_type, store) ::
        reg.decorators.filter (fun p => !(p.1 == service_type)) }

/-- `_Registry.register_pre_configuration` for a single service type:
prepend the hook to that type's deque (`appendleft`). -/
def Registry.pre_configure (reg : Registry) (service_type : Ty)
    (pc : PreConfiguration) : Registry :=
  { reg with pre_configurations := (service_type, pc) :: reg.pre_configurations }

/-- Mark a pre-configuration as run (`self.has_run = True` on the shared
`PreConfiguration` object): every registry entry holding the hook with this
id is updated, modelling mutation of the shared Python object. -/
def Registry.markPreConfigRun (reg : Registry) (pcId : Nat) : Registry :=
  { reg with
    pre_configurations := reg.pre_configurations.map (fun p =>
      if p.2.pcId == pcId then (p.1, { p.2 with has_run := true }) else p) }

/-- A record for a cached dependency node: the node's identity, the
registration that built it, and its (possibly decorated) instance. This is
the slice of `DependencyNode` the cache tiers and the cache-hit logic read. -/
structure DNode where
  nodeId : Nat
  regId : Nat
  instVal : Val
deriving Repr

/-- One scope's own state (`Scope.__init__`): its registry and its
`_scoped_instances` cache. (The teardown dictionaries and finalizer deque
are written but never executed by any claim and are not carried; the
self-registrations of `Scope`/`Resolver`/... concern service types outside
every claim's registry and are likewise omitted.) -/
structure ScopeFrame where
  registry : Registry := {}
  scoped_instances : List (Nat × DNode) := []
deriving Repr

/-- Look up a node by registration id in a newest-first association list
(a Python dict where assignment overwrites: the first match wins). -/
def lookupNode (l : List (Nat × DNode)) (k : Nat) : Option DNode :=
  ((l.find? (fun p => p.1 == k)).map (·.2))

/-- `Scope.find_scoped_node` / `ChildScope.find_scoped_node`: check the own
scoped cache of each scope from the innermost outward. -/
def framesFindScopedNode : List ScopeFrame → Nat → Option DNode
  | [], _ => none
  | f :: fs, k =>
    match lookupNode f.scoped_instances k with
    | some n => some n
    | none => framesFindScopedNode fs k

/-- `Scope.find_registrations` restricted to one scope's registry: apply
the registration filter and the registration's `parent_node_filter`. -/
def frameFindRegistrations (f : ScopeFrame) (t : Ty)
    (filter : RegistrationFilter) : List Registration :=
  (f.registry.get_registrations t).filter
    (fun r => filter.eval r && r.parent_node_filter)

/-- `ChildScope.find_registrations`: own registrations first, then the
parent's, recursively out to the container (the default
`list_modifier` is the identity and is not carried). -/
def chainFindRegistrations (frames : List ScopeFrame) (t : Ty)
    (filter : RegistrationFilter) : List Registration :=
  frames.flatMap (fun f => frameFindRegistrations f t filter)

/-- `ChildScope.find_decorators`: the own store's decorators in sorted
order, then the parent's, each filtered by the decorator's registration
filter and its decorated-node filter. -/
def chainFindDecorators (frames : List ScopeFrame) (r : Registration) :
    List Decorator :=
  frames.flatMap (fun f =>
    ((f.registry.get_decorator_store r.service_type).toList).filter
      (fun d => d.registration_filter.eval r && d.decorated_node_filter))

/-- `ChildScope.find_pre_configurations`: the hooks registered against the
registration's service type that have not yet run and whose filter accepts
the registration, own scope first, then the parents. -/
def chainFindPreConfigurations (frames : List ScopeFrame) (r : Registration) :
    List PreConfiguration :=
  frames.flatMap (fun f =>
    (f.registry.get_pre_configurations r.service_type).filter
      (fun c => !c.has_run && c.registration_filter.eval r))

/-- Failures propagated out of a resolve call:
`cannotResolve` is `CannotResolveError`, carrying the chain of
`Dependency` objects appended as the exception propagates;
`preConfigurationFailed` is the configuration function's own exception,
re-raised when the hook is not failure-tolerant; `fuelOut` stands for the
unbounded recursion the source would perform on a dependency cycle
(no cycle detection exists; see the spec's open questions). -/
inductive BuildError
  | cannotResolve (dependencies : List Dep)
  | preConfigurationFailed (pcId : Nat)
  | fuelOut
deriving Repr

/-- The state threaded through one root resolve call: the scope the resolve
was called on (`scope`, with its enclosing scopes in `outer`, the container
last), the container's singleton cache, the `_DependencyCache._current_items`
per-call cache, a fresh-id counter for nodes, and three append-only logs:
`activations` records each invocation of a registration's implementation
(by registration id), `pc_runs` each invocation of a pre-configuration's
configuration function, and `child_log` each `add_child(parent, child)`
event, as (parent node id, child node id). -/
structure BuildState where
  scope : ScopeFrame
  outer : List ScopeFrame
  singletons : List (Nat × DNode)
  current_items : List (Nat × DNode)
  next_node_id : Nat
  activations : List Nat
  pc_runs : List Nat
  child_log : List (Nat × Nat)
deriving Repr

/-- The scope chain of the build state, innermost scope first, container
last. -/
def BuildState.frames (st : BuildState) : List ScopeFrame :=
  st.scope :: st.outer

/-- `_DependencyCache.get`: per-call cache first, then the scoped caches
walking up the scope chain, then the container's singletons; hits found in
an outer tier are copied into the per-call cache. -/
def cacheGet (st : BuildState) (regId : Nat) : Option DNode × BuildState :=
  match lookupNode st.current_items regId with
  | some n => (some n, st)
  | none =>
    match framesFindScopedNode st.frames regId with
    | some n => (some n, { st with current_items := (regId, n) :: st.current_items })
    | none =>
      match lookupNode st.singletons regId with
      | some n => (some n, { st with current_items := (regId, n) :: st.current_items })
      | none => (none, st)

/-- `_DependencyCache.put` together with `add_singleton_node` /
`add_scoped_node`: singleton nodes go to the container's singleton cache
(a `ChildScope` delegates to its parent), scoped nodes to the scope the
resolve was called on, and every lifespan `>= once_per_graph` also lands in
the per-call cache. (The teardown-callback bookkeeping of
`add_scoped_node` is not executed by any claim and is omitted.) -/
def cachePut (r : Registration) (node : DNode) (st : BuildState) : BuildState :=
  let st :=
    if r.lifespan == Lifespan.singleton then
      { st with singletons := (r.id, node) :: st.singletons }
    else if r.lifespan == Lifespan.scoped then
      { st with scope :=
          { st.scope with scoped_instances := (r.id, node) :: st.scope.scoped_instances } }
    else st
  if Lifespan.le .once_per_graph r.lifespan then
    { st with current_items := (r.id, node) :: st.current_items }
  else st

/-- `_Registration._try_find_cached_node`: consult the cache; on a hit,
splice the cached node in as a child of the current parent
(`parent_node.add_child(cached_node)`) — note this happens before the
caller tests the truthiness of the cached instance. -/
def tryFindCachedNode (r : Registration) (parent : Nat) (st : BuildState) :
    Option DNode × BuildState :=
  match cacheGet st r.id with
  | (some node, st') =>
    (some node, { st' with child_log := st'.child_log ++ [(parent, node.nodeId)] })
  | (none, st') => (none, st')

/-- Mark a pre-configuration as run in every registry of the scope chain
(the shared object's `has_run` flag is visible from every scope). -/
def BuildState.markPreConfigRun (st : BuildState) (pcId : Nat) : BuildState :=
  { st with
    scope := { st.scope with registry := st.scope.registry.markPreConfigRun pcId },
    outer := st.outer.map (fun f =>
      { f with registry := f.registry.markPreConfigRun pcId }) }

/-- The pre-configuration loop of `_Registration.build` combined with
`PreConfiguration.run` / `_run_safely`: invoke each hook's configuration
function (logged in `pc_runs`); on success set `has_run = True`; on an
exception, re-raise it unless the hook was declared failure-tolerant
(`continue_on_failure`), in which case the exception is swallowed (and
logged) — `has_run` is only assigned after a successful run, so a failed
tolerant hook is left unmarked. -/
def runPreConfigurations :
    List PreConfiguration → BuildState → Except BuildError BuildState
  | [], st => .ok st
  | pc :: rest, st =>
    let st := { st with pc_runs := st.pc_runs ++ [pc.pcId] }
    if pc.raises then
      if pc.continue_on_failure then runPreConfigurations rest st
      else .error (.preConfigurationFailed pc.pcId)
    else
      runPreConfigurations rest (st.markPreConfigRun pc.pcId)

/-- The decorator loop of `_Registration.build`: apply the applicable
decorators in store order, each wrapping the previous instance and
receiving its own freshly created node spliced into the decoration chain;
returns the final instance and the id of the top decorated node (the node
that will be cached). -/
def applyDecorators :
    List Decorator → Val → Nat → BuildState → Val × Nat × BuildState
  | [], v, topNodeId, st => (v, topNodeId, st)
  | d :: rest, v, _, st =>
    let decNodeId := st.next_node_id
    applyDecorators rest (.wrap d.decorator_type v) decNodeId
      { st with next_node_id := st.next_node_id + 1 }

/-- The non-cached path of `_Registration.build` (everything after the
cache check), parametrized by the builder used for sub-dependencies:
create the new node as a child of the parent, run the applicable
pre-configurations, resolve the implementation's parameter dependencies,
activate the implementation, apply the applicable decorators, and cache the
top decorated node under the registration's id. -/
def registrationBuildNew
    (resolveList :
      List Dep → Nat → BuildState → Except BuildError (List Val × BuildState))
    (r : Registration) (parent : Nat) (st : BuildState) :
    Except BuildError (Val × BuildState) :=
  let nodeId := st.next_node_id
  let st := { st with next_node_id := st.next_node_id + 1,
                      child_log := st.child_log ++ [(parent, nodeId)] }
  let pcs := chainFindPreConfigurations st.frames r
  match runPreConfigurations pcs st with
  | .error e => .error e
  | .ok st =>
    match resolveList r.deps nodeId st with
    | .error e => .error e
    | .ok (args, st) =>
      let v := r.impl.activate args
      let st := { st with activations := st.activations ++ [r.id] }
      let decs := chainFindDecorators st.frames r
      match applyDecorators decs v nodeId st with
      | (vTop, topNodeId, st) =>
        let node : DNode := { nodeId := topNodeId, regId := r.id, instVal := vTop }
        .ok (vTop, cachePut r node st)

/-- `_Registration.build`, parametrized by the recursive builders: check
the cache first; a hit short-circuits the build and returns the cached
instance — but only when that instance is truthy
(`if cached_node := self._try_find_cached_node(...)`: the walrus target is
the cached *instance*, so a falsy cached instance falls through to a full
rebuild). -/
def registrationBuildCore
    (resolveList :
      List Dep → Nat → BuildState → Except BuildError (List Val × BuildState))
    (r : Registration) (parent : Nat) (st : BuildState) :
    Except BuildError (Val × BuildState) :=
  match tryFindCachedNode r parent st with
  | (some node, st) =>
    if node.instVal.truthy then .ok (node.instVal, st)
    else registrationBuildNew resolveList r parent st
  | (none, st) => registrationBuildNew resolveList r parent st

/-- `_ResolvingContext.find_registration`: take the first candidate after
filtering; if none and the requested type is a parameterized generic alias,
retry against the alias's unparameterized origin type
(`try_generic_fallback`) before raising `CannotResolveError()`. -/
def chainFindRegistration (frames : List ScopeFrame) (t : Ty)
    (filter : RegistrationFilter) : Except BuildError Registration :=
  match (chainFindRegistrations frames t filter).head? with
  | some r => .ok r
  | none =>
    match t with
    | .generic origin _ =>
      match (chainFindRegistrations frames (.plain origin) filter).head? with
      | some r => .ok r
      | none => .error (.cannotResolve [])
    | _ => .error (.cannotResolve [])

/-- `Dependency.resolve`, parametrized by the builders for the recursive
calls. In source order: apply the value factory to the default value and
return any non-EMPTY result immediately; for a generic collection type,
find all matching registrations, create the synthetic collection node as a
child of the current node, build every element and collect; otherwise find
the single best registration and build it, catching `CannotResolveError`
to append this dependency to the error's chain (`ex.append(self)`).
(The `DependencyContext`/`CurrentGraph` marker branches are not exercised
by any claim and are omitted.) -/
def dependencyResolve
    (build : Registration → Nat → BuildState → Except BuildError (Val × BuildState))
    (buildList :
      List Registration → Nat → BuildState → Except BuildError (List Val × BuildState))
    (d : Dep) (node : Nat) (st : BuildState) :
    Except BuildError (Val × BuildState) :=
  match d.settings.value_factory.apply d.default_value with
  | some v => .ok (v, st)
  | none =>
    match d.service_type with
    | .listOf elem =>
      let regs := chainFindRegistrations st.frames elem d.settings.filter
      let seqNodeId := st.next_node_id
      let st := { st with next_node_id := st.next_node_id + 1,
                          child_log := st.child_log ++ [(node, seqNodeId)] }
      match buildList regs seqNodeId st with
      | .ok (vs, st) => .ok (.coll vs, st)
      | .error e => .error e
    | t =>
      match chainFindRegistration st.frames t d.settings.filter with
      | .ok r =>
        match build r node st with
        | .ok res => .ok res
        | .error (.cannotResolve ds) => .error (.cannotResolve (ds ++ [d]))
        | .error e => .error e
      | .error (.cannotResolve ds) => .error (.cannotResolve (ds ++ [d]))
      | .error e => .error e

/-- `_resolve_dependencies`: resolve each parameter dependency in
declaration order against the node being constructed. -/
def resolveDependencyList
    (build : Registration → Nat → BuildState → Except BuildError (Val × BuildState))
    (buildList :
      List Registration → Nat → BuildState → Except BuildError (List Val × BuildState)) :
    List Dep → Nat → BuildState → Except BuildError (List Val × BuildState)
  | [], _, st => .ok ([], st)
  | d :: ds, node, st =>
    match dependencyResolve build buildList d node st with
    | .error e => .error e
    | .ok (v, st) =>
      match resolveDependencyList build buildList ds node st with
      | .error e => .error e
      | .ok (vs, st) => .ok (v :: vs, st)

/-- The element builds of a collection dependency
(`(r.build(context, sequence_node) for r in regs)` consumed in order by the
collection constructor). -/
def buildRegistrationList
    (build : Registration → Nat → BuildState → Except BuildError (Val × BuildState)) :
    List Registration → Nat → BuildState → Except BuildError (List Val × BuildState)
  | [], _, st => .ok ([], st)
  | r :: rs, parent, st =>
    match build r parent st with
    | .error e => .error e
    | .ok (v, st) =>
      match buildRegistrationList build rs parent st with
      | .error e => .error e
      | .ok (vs, st) => .ok (v :: vs, st)

/-- The full recursive builder: fuel-indexed `_Registration.build`, tying
the recursive knot. The source recurses without bound (a self-referential
registration overflows the Python stack); `fuel` bounds that recursion,
with exhaustion reported as `BuildError.fuelOut`. -/
def registrationBuild :
    Nat → Registration → Nat → BuildState → Except BuildError (Val × BuildState)
  | 0 => fun _ _ _ => .error .fuelOut
  | fuel + 1 =>
    registrationBuildCore
      (resolveDependencyList (registrationBuild fuel)
        (buildRegistrationList (registrationBuild fuel)))

/-- `Dependency.resolve` with the fuel-indexed builders plugged in. -/
def dependencyResolveFueled (fuel : Nat) (d : Dep) (node : Nat)
    (st : BuildState) : Except BuildError (Val × BuildState) :=
  dependencyResolve (registrationBuild fuel)
    (buildRegistrationList (registrationBuild fuel)) d node st

/-- The state that persists between resolve calls on one container:
the scope the next resolve is called on (`scope`, the container itself when
no child scope is open), the enclosing scopes in `outer` (container last),
the container's singleton cache, and the id counter and event logs carried
across calls. -/
structure World where
  scope : ScopeFrame := {}
  outer : List ScopeFrame := []
  singletons : List (Nat × DNode) := []
  next_node_id : Nat := 0
  activations : List Nat := []
  pc_runs : List Nat := []
  child_log : List (Nat × Nat) := []
deriving Repr

/-- The root dependency created by `DependencyGraph.__init__`:
`Dependency(name="__ROOT__", parent_implementation=DependencyGraph,
service_type=..., settings=DependencySettings(filter=...),
default_value=EMPTY)`. The reserved ids 0 stand for the `__ROOT__` name and
the `DependencyGraph` implementation. -/
def rootDependencyFor (t : Ty) (filter : RegistrationFilter) : Dep :=
  { name := 0, parent_implementation := 0, service_type := t,
    settings := { filter := filter }, default_value := none }

/-- `Scope.resolve` / `resolve_dependency_graph`: create the root graph
node and a fresh `_ResolvingContext` (whose `_DependencyCache` starts as
the merge of the container's singletons and the calling scope's own scoped
instances), resolve the root dependency, and return the built instance;
the per-call cache is discarded afterwards. -/
def scopeResolve (fuel : Nat) (w : World) (t : Ty)
    (filter : RegistrationFilter) : Except BuildError (Val × World) :=
  let rootNodeId := w.next_node_id
  let st : BuildState :=
    { scope := w.scope, outer := w.outer, singletons := w.singletons,
      current_items := w.scope.scoped_instances ++ w.singletons,
      next_node_id := w.next_node_id + 1, activations := w.activations,
      pc_runs := w.pc_runs, child_log := w.child_log }
  match dependencyResolveFueled fuel (rootDependencyFor t filter) rootNodeId st with
  | .ok (v, st) =>
    .ok (v, { scope := st.scope, outer := st.outer, singletons := st.singletons,
              next_node_id := st.next_node_id, activations := st.activations,
              pc_runs := st.pc_runs, child_log := st.child_log })
  | .error e => .error e

/-- `with container.new_scope() as scope: scope.resolve(...)`: open a fresh
child scope (`ChildScope(parent)`, with its own empty registry and scoped
cache), resolve in it, then leave the scope, discarding the child frame and
its scoped cache while keeping every update to the enclosing scopes. -/
def resolveInNewScope (fuel : Nat) (w : World) (t : Ty)
    (filter : RegistrationFilter) : Except BuildError (Val × World) :=
  match scopeResolve fuel { w with scope := {}, outer := w.scope :: w.outer } t filter with
  | .ok (v, w') =>
    .ok (v, { w' with scope := w'.outer.headD {}, outer := w'.outer.tail })
  | .error e => .error e

/-- The inner loop of `Container.register_generic_subclasses`: for each
discovered subclass, register it under its closed generic base when
`_get_target_generic_base` found one. The subclass scan
(`get_subclasses` plus the generic-argument mapping, both provided by the
external typing utility) is supplied as data: a list of
(subclass, optional closed generic base) pairs. -/
def registerScannedSubclasses (reg : Registry)
    (scan : List (Nat × Option Ty)) (lifespan : Lifespan) :
    Except String Registry :=
  match scan with
  | [] => .ok reg
  | (sc, some base) :: rest =>
    match reg.register_implementation base sc [] lifespan none false with
    | .error e => .error e
    | .ok reg' => registerScannedSubclasses reg' rest lifespan
  | (_, none) :: rest => registerScannedSubclasses reg rest lifespan

/-- `Container.register_generic_subclasses`: register every scanned
subclass under its closed generic base, then, when a fallback type is
given, register the fallback under the open (unparameterized) generic
service type itself. -/
def registerGenericSubclasses (reg : Registry) (generic_service_type : Nat)
    (scan : List (Nat × Option Ty)) (fallback_type : Option Nat)
    (lifespan : Lifespan) : Except String Registry :=
  match registerScannedSubclasses reg scan lifespan with
  | .error e => .error e
  | .ok reg' =>
    match fallback_type with
    | some f =>
      reg'.register_implementation (.plain generic_service_type) f [] lifespan
        none false
    | none => .ok reg'

/-- `CannotResolveError.dependency_chain` reduced to its frame order: the
boxes are printed by `enumerate(self.dependencies)`, index 0 first, each
box showing the frame's `implementation`, `dependency_name` and
`service_type`; this projection lists exactly those triples in rendering
order. -/
def dependency_chain_frames (dependencies : List Dep) :
    List (Nat × Nat × Ty) :=
  dependencies.map (fun d => (d.parent_implementation, d.name, d.service_type))

/-- Unwrap a registry-construction chain that is expected to succeed
(no registration-time guard fires in the scenario); a failed chain
collapses to the empty registry, which would make the scenario theorems
false rather than vacuous. -/
def registryOf (e : Except String Registry) : Registry :=
  match e with
  | .ok r => r
  | .error _ => {}

/-- Project a resolve result to the returned instance. -/
def resolvedValue (x : Except BuildError (Val × World)) : Except BuildError Val :=
  x.map (·.1)

/-- Whether a resolve call failed with `CannotResolveError` (as opposed to
succeeding or failing with a propagated pre-configuration exception). -/
def isResolutionFailure (x : Except BuildError (Val × World)) : Bool :=
  match x with
  | .error (.cannotResolve _) => true
  | _ => false

/-- Two sequential resolve calls on the same scope, returning both
instances and the final world. -/
def resolveTwiceSameScope (fuel : Nat) (w : World) (t : Ty)
    (filter : RegistrationFilter) : Except BuildError ((Val × Val) × World) :=
  match scopeResolve fuel w t filter with
  | .ok (v1, w1) =>
    match scopeResolve fuel w1 t filter with
    | .ok (v2, w2) => .ok ((v1, v2), w2)
    | .error e => .error e
  | .error e => .error e

/-- The chain of decorator types of a resolved instance, outermost first. -/
def decoratorSpine : Val → List Nat
  | .wrap d inner => d :: decoratorSpine inner
  | _ => []

/-- Decorator spine of a resolve result (empty on failure). -/
def resolvedDecoratorSpine (x : Except BuildError Val) : List Nat :=
  match x with
  | .ok v => decoratorSpine v
  | .error _ => []

/-! Scenario worlds for the claims. Class identifiers are arbitrary
distinct naturals; each scenario notes which Python program it transcribes. -/

/-- C2 scenario registry: `container.register(A)` (A = 30) and
`container.pre_configure(A, failing_fn, continue_on_failure=True)`
(hook id 31, whose configuration function raises). -/
def c2Registry : Registry :=
  registryOf (do
    let r ← Registry.register_concrete {} 30 [] .once_per_graph none false
    pure (r.pre_configure (.plain 30)
      { pcId := 31, raises := true, continue_on_failure := true }))

/-- C2 scenario container. -/
def c2World : World := { scope := { registry := c2Registry } }

/-- C2 scenario: resolve A twice in sequence on the container. -/
def c2Run : Except BuildError ((Val × Val) × World) :=
  resolveTwiceSameScope 10 c2World (.plain 30) .default

/-- The `has_run` flags of the pre-configurations stored against A after
the C2 scenario ran. -/
def c2StoredHasRunFlags : List Bool :=
  match c2Run with
  | .ok (_, w) => (w.scope.registry.get_pre_configurations (.plain 30)).map (·.has_run)
  | .error _ => []

/-- C3 default-position scenario: `container.register(A)` (A = 10), then
`register_decorator(A, D1)` (11), then `register_decorator(A, D2)` (12),
both with the default position 0. -/
def c3DefaultRegistry : Registry :=
  registryOf (do
    let r ← Registry.register_concrete {} 10 [] .once_per_graph none false
    let r := r.register_decorator (.plain 10) 11 .default true 0
    let r := r.register_decorator (.plain 10) 12 .default true 0
    pure r)

/-- C3 explicit-position scenario: base A = 15; decorator X = 16 registered
first with position 1, decorator Y = 17 registered second with position 2. -/
def c3PositionRegistry : Registry :=
  registryOf (do
    let r ← Registry.register_concrete {} 15 [] .once_per_graph none false
    let r := r.register_decorator (.plain 15) 16 .default true 1
    let r := r.register_decorator (.plain 15) 17 .default true 2
    pure r)

/-- C3 tie-break scenario, transcribing the repository's own
`test_nested_decorators_with_sort_index`: base A = 20; D1 = 21 and D2 = 22
at the default position 0, D3 = 23 at position 10, D4 = 24 at position -10,
D5 = 25 at position 10, registered in that order. -/
def c3TieRegistry : Registry :=
  registryOf (do
    let r ← Registry.register_concrete {} 20 [] .once_per_graph none false
    let r := r.register_decorator (.plain 20) 21 .default true 0
    let r := r.register_decorator (.plain 20) 22 .default true 0
    let r := r.register_decorator (.plain 20) 23 .default true 10
    let r := r.register_decorator (.plain 20) 24 .default true (-10)
    let r := r.register_decorator (.plain 20) 25 .default true 10
    pure r)

/-- C4 scenario registry: class C = 43 whose constructor takes a parameter
of type B = 42; class B whose constructor takes a parameter of type A = 41;
A is never registered. -/
def c4Registry : Registry :=
  registryOf (do
    let r ← Registry.register_concrete {} 42
      [{ name := 2, parent_implementation := 42, service_type := .plain 41 }]
      .once_per_graph none false
    let r ← r.register_concrete 43
      [{ name := 1, parent_implementation := 43, service_type := .plain 42 }]
      .once_per_graph none false
    pure r)

/-- C4 scenario: resolve C and take the frames of the rendered dependency
chain of the raised `CannotResolveError`. -/
def c4ErrorFrames : List (Nat × Nat × Ty) :=
  match scopeResolve 10 { scope := { registry := c4Registry } } (.plain 43) .default with
  | .error (.cannotResolve ds) => dependency_chain_frames ds
  | _ => []

/-- C5 scenario registry: `container.register(S, instance=obj,
lifespan=Lifespan.singleton)` for S = 50 with the instance `v`. -/
def c5Registry (v : Val) : Registry :=
  registryOf (Registry.register_instance {} (.plain 50) v .singleton none false)

/-- The container state after the first C5 resolve (from a fresh child
scope): the registry is untouched, the built node for registration 0 sits
in the container's singleton cache, ids 0 (root node) and 1 (instance
node) are used up, the implementation was activated once, and the child
log records the instance node's attachment under the root. The first
conjunct of the C5 theorems proves this is exactly the world the engine
produces. -/
def c5MidWorld (v : Val) : World :=
  { scope := { registry := c5Registry v }, outer := [],
    singletons := [(0, { nodeId := 1, regId := 0, instVal := v })],
    next_node_id := 2, activations := [0], pc_runs := [], child_log := [(0, 1)] }

/-- C6 subclass scan: class B = 61 extends the open generic base A = 60 as
`A[int]` (int = 601); this pair list is the output of `get_subclasses` plus
`_get_target_generic_base` for that class hierarchy. `str` is 602 and the
fallback class F is 62. -/
def c6Scan : List (Nat × Option Ty) := [(61, some (.generic 60 601))]

/-- C6 registry without a fallback type:
`container.register_generic_subclasses(A)`. -/
def c6Registry : Registry :=
  registryOf (registerGenericSubclasses {} 60 c6Scan none .once_per_graph)

/-- C6 registry with fallback type F = 62:
`container.register_generic_subclasses(A, fallback_type=F)`. -/
def c6FallbackRegistry : Registry :=
  registryOf (registerGenericSubclasses {} 60 c6Scan (some 62) .once_per_graph)

/-- C7 scenario registry: `container.register(int, instance=5)`, then
`...instance=10`, then `...instance=15` (int = 70), three separate unnamed
instance registrations at the default lifespan argument. -/
def c7Registry : Registry :=
  registryOf (do
    let r ← Registry.register_instance {} (.plain 70) (.prim 5) .once_per_graph none false
    let r ← r.register_instance (.plain 70) (.prim 10) .once_per_graph none false
    let r ← r.register_instance (.plain 70) (.prim 15) .once_per_graph none false
    pure r)

/-- C8 singleton scenario registry: S = 83 registered with a factory
returning the fixed instance `v`, lifespan singleton
(`container.register(S, factory=make_s, lifespan=Lifespan.singleton)`). -/
def c8SingletonRegistry (v : Val) : Registry :=
  registryOf (Registry.register_factory {} (.plain 83) (.const v) [] .singleton none false)

/-- The container state after the first C8 singleton resolve (from a fresh
child scope): the node for registration 0 is cached in the singleton tier,
one activation happened, ids 0 and 1 are used. -/
def c8SingletonMidWorld (v : Val) : World :=
  { scope := { registry := c8SingletonRegistry v }, outer := [],
    singletons := [(0, { nodeId := 1, regId := 0, instVal := v })],
    next_node_id := 2, activations := [0], pc_runs := [], child_log := [(0, 1)] }

/-- C8 once-per-graph scenario: S = 80 registered with a factory returning
`v` at the default once_per_graph lifespan; P = 81 takes two constructor
parameters both of type S, so one root resolve of P builds S twice through
the per-graph cache. -/
def c8OncePerGraphRun (v : Val) : Except BuildError (Val × World) :=
  scopeResolve 10
    { scope := { registry := registryOf (do
        let r ← Registry.register_factory {} (.plain 80) (.const v) [] .once_per_graph none false
        let r ← r.register_concrete 81
          [{ name := 1, parent_implementation := 81, service_type := .plain 80 },
           { name := 2, parent_implementation := 81, service_type := .plain 80 }]
          .once_per_graph none false
        pure r) } }
    (.plain 81) .default

/-- C8 scoped scenario registry: S = 85 registered as an instance
registration (`container.register(S, instance=obj)`, whose stored lifespan
is scoped) with instance `v`. -/
def c8ScopedRegistry (v : Val) : Registry :=
  registryOf (Registry.register_instance {} (.plain 85) v .once_per_graph none false)

/-- The scope state after the first C8 scoped resolve: the node for
registration 0 is cached in the calling scope's scoped-instance tier, one
activation happened, ids 0 and 1 are used. -/
def c8ScopedMidWorld (v : Val) : World :=
  { scope := { registry := c8ScopedRegistry v,
               scoped_instances := [(0, { nodeId := 1, regId := 0, instVal := v })] },
    outer := [], singletons := [],
    next_node_id := 2, activations := [0], pc_runs := [], child_log := [(0, 1)] }

/-- C10 helper: the registration stored by
`container.register(T, instance=obj, lifespan=l)`. -/
def storedInstanceRegistration (t : Ty) (v : Val) (l : Lifespan) :
    Option Registration :=
  (registryOf (Registry.register_instance {} t v l none false)).registrations.head?.map (·.2)

/-- C10 witness data: a stored scoped instance registration. -/
def c10Reg : Registration :=
  { id := 0, service_type := .plain 90, impl := .const (.prim 3),
    lifespan := .scoped }

/-- C10 witness data: a cached node. -/
def c10Node : DNode := { nodeId := 7, regId := 0, instVal := .prim 3 }

/-- C10 witness data: an empty build state. -/
def c10St : BuildState :=
  { scope := {}, outer := [], singletons := [], current_items := [],
    next_node_id := 0, activations := [], pc_runs := [], child_log := [] }

/-! Theorems settling the claims. -/

/-- C1: the claim states that a `scoped_teardown` with a transient or
once_per_graph lifespan is rejected at registration time while scoped and
singleton succeed. The code's guard in `_Registration.__init__` reads
`if scoped_teardown and not lifespan <= Lifespan.scoped`, which fires
exactly for `singleton` (the one lifespan its own error message says is
allowed) and accepts `transient` and `once_per_graph`. This theorem
evaluates the embedded guard at all four lifespans, exhibiting the
divergence between the code and the claim (and the code's own error
message): singleton is rejected, transient and once_per_graph are
accepted. -/
theorem c1_scoped_teardown_guard_inverted :
    registrationAccepted true Lifespan.singleton = false
      ∧ registrationAccepted true Lifespan.scoped = true
      ∧ registrationAccepted true Lifespan.transient = true
      ∧ registrationAccepted true Lifespan.once_per_graph = true
      ∧ registrationAccepted false Lifespan.singleton = true :=
  ⟨rfl, rfl, rfl, rfl, rfl⟩

/-- C2 counterexample: with a failure-tolerant pre-configuration whose
configuration function raises (hook 31 against service 30), two sequential
resolves both complete but the hook's configuration function is invoked on
each build — `pc_runs = [31, 31]`, not the `[31]` the claim's "never
executed again" demands — and the stored hook still has
`has_run = false`. -/
theorem c2_counterexample_tolerant_failure_reruns :
    c2Run.map (fun p => (p.1, p.2.pc_runs))
        = .ok ((.obj 30 [], .obj 30 []), [31, 31])
      ∧ ([31, 31] : List Nat) ≠ [31]
      ∧ c2StoredHasRunFlags ≠ [true] :=
  ⟨rfl, by decide, by decide⟩

/-- C2 (amended): for every pre-configuration declared failure-tolerant
whose configuration function raises during a build, the exception is
caught (and logged) and the build continues, but the hook is NOT marked as
having run — `has_run` is assigned only after a successful run — so the
hook executes again on every later build of a matching registration; in
the concrete two-resolve scenario it runs once per build and its stored
`has_run` flag stays false. -/
theorem c2_tolerant_failure_swallowed_but_not_marked_run
    (pc : PreConfiguration) (st : BuildState)
    (h1 : pc.raises = true) (h2 : pc.continue_on_failure = true) :
    runPreConfigurations [pc] st
        = .ok { st with pc_runs := st.pc_runs ++ [pc.pcId] }
      ∧ c2Run.map (fun p => (p.1, p.2.pc_runs))
          = .ok ((.obj 30 [], .obj 30 []), [31, 31])
      ∧ c2StoredHasRunFlags = [false] := by
  refine ⟨?_, rfl, rfl⟩
  simp [runPreConfigurations, h1, h2]

/-- C2 witness: the amended theorem applied to a concrete failing tolerant
hook and the empty build state. -/
theorem c2_tolerant_failure_swallowed_but_not_marked_run_witness :
    ({ pcId := 99, raises := true, continue_on_failure := true } :
        PreConfiguration).raises = true
      ∧ (runPreConfigurations
            [{ pcId := 99, raises := true, continue_on_failure := true }] c10St
          = .ok { c10St with pc_runs := c10St.pc_runs ++ [99] }
        ∧ c2Run.map (fun p => (p.1, p.2.pc_runs))
            = .ok ((.obj 30 [], .obj 30 []), [31, 31])
        ∧ c2StoredHasRunFlags = [false]) :=
  ⟨rfl, c2_tolerant_failure_swallowed_but_not_marked_run
    { pcId := 99, raises := true, continue_on_failure := true } c10St rfl rfl⟩

/-- C3 counterexample: with explicit positions — decorator 16 registered
first at position 1, decorator 17 second at position 2 — the resolved
outer-to-inner decorator chain is `[17, 16]` (descending position), not the
`[16, 17]` that the claim's "outer-to-inner order follows ascending
position" predicts. -/
theorem c3_counterexample_ascending_position_order :
    resolvedDecoratorSpine (resolvedValue (scopeResolve 10
          { scope := { registry := c3PositionRegistry } } (.plain 15) .default))
        = [17, 16]
      ∧ ([17, 16] : List Nat) ≠ [16, 17] :=
  ⟨rfl, by decide⟩

/-- C3 (amended): with default positions the first-registered decorator is
outermost — D1 then D2 yields `D1(D2(base))` — and with explicit integer
positions the decorators are applied inner-to-outer in ascending position
with ties broken by reverse registration order; equivalently the
outer-to-inner order follows *descending* position with ties broken by
registration order. The tie-break scenario reproduces the repository's own
`test_nested_decorators_with_sort_index` ordering
(D3, D5, D1, D2, D4 from outermost to innermost). -/
theorem c3_decorator_order_default_and_positions :
    resolvedValue (scopeResolve 10
          { scope := { registry := c3DefaultRegistry } } (.plain 10) .default)
        = .ok (.wrap 11 (.wrap 12 (.obj 10 [])))
      ∧ resolvedValue (scopeResolve 10
            { scope := { registry := c3TieRegistry } } (.plain 20) .default)
          = .ok (.wrap 23 (.wrap 25 (.wrap 21 (.wrap 22 (.wrap 24 (.obj 20 []))))))
      ∧ resolvedDecoratorSpine (resolvedValue (scopeResolve 10
            { scope := { registry := c3PositionRegistry } } (.plain 15) .default))
          = [17, 16] :=
  ⟨rfl, rfl, rfl⟩

/-- C4 counterexample: resolving C (43) → B (42) → unregistered A (41), the
rendered dependency chain lists the frames with the failing A frame first
and the root C frame last — service types `[A, B, C]` — not the
root-to-leaf `[C, B, A]` order the claim states. -/
theorem c4_counterexample_chain_not_root_to_leaf :
    c4ErrorFrames.map (fun f => f.2.2) = [.plain 41, .plain 42, .plain 43]
      ∧ ([Ty.plain 41, .plain 42, .plain 43] : List Ty)
          ≠ [Ty.plain 43, .plain 42, .plain 41] :=
  ⟨rfl, by decide⟩

/-- C4 (amended): resolving a service C that depends on B that depends on
an unregistered A raises a resolution error, and the rendered dependency
chain lists the frames from the failure point back to the root: the frame
for the failing A first (requested by B's constructor), then B's frame
(requested by C's constructor), then the root frame for C — i.e.
leaf-to-root, the reverse of the claimed order. -/
theorem c4_error_chain_lists_leaf_to_root :
    isResolutionFailure (scopeResolve 10
          { scope := { registry := c4Registry } } (.plain 43) .default) = true
      ∧ c4ErrorFrames
          = [(42, 2, .plain 41), (43, 1, .plain 42), (0, 0, .plain 43)] :=
  ⟨rfl, rfl⟩

/-- C5 counterexample: a singleton instance registration whose instance is
falsy (the int 0) is re-activated by the second resolve — the cache hit is
decided by the truthiness of the cached instance — so the implementation
runs twice (`activations = [0, 0]`), contradicting the claim's "activated
at most once for the lifetime of the container". The first conjunct pins
down the container state after the first resolve; the second resolves
again from a second fresh child scope of that state. -/
theorem c5_counterexample_falsy_singleton_reactivated :
    resolveInNewScope 10 { scope := { registry := c5Registry (.prim 0) } }
          (.plain 50) .default
        = .ok (.prim 0, c5MidWorld (.prim 0))
      ∧ (resolveInNewScope 10 (c5MidWorld (.prim 0)) (.plain 50) .default).map
            (fun p => (p.1, p.2.activations))
          = .ok (.prim 0, [0, 0])
      ∧ ¬(([0, 0] : List Nat).length ≤ 1) :=
  ⟨rfl, rfl, by decide⟩

/-- C5 (amended): for a singleton registration whose instance is truthy,
resolving its service type twice from two different fresh child scopes of
the same container returns the same instance both times with the
implementation activated exactly once — the first resolve leaves the
container in `c5MidWorld v` with the node in the singleton cache and one
activation logged, and the second resolve is served from that cache,
adding no activation. -/
theorem c5_truthy_singleton_single_activation (v : Val)
    (h : v.truthy = true) :
    resolveInNewScope 10 { scope := { registry := c5Registry v } }
          (.plain 50) .default
        = .ok (v, c5MidWorld v)
      ∧ (resolveInNewScope 10 (c5MidWorld v) (.plain 50) .default).map
            (fun p => (p.1, p.2.activations))
          = .ok (v, [0]) := by
  cases v with
  | prim n =>
    cases n with
    | zero => simp [Val.truthy] at h
    | succ m => exact ⟨rfl, rfl⟩
  | obj c a => exact ⟨rfl, rfl⟩
  | wrap d i => exact ⟨rfl, rfl⟩
  | coll es =>
    cases es with
    | nil => simp [Val.truthy] at h
    | cons e es => exact ⟨rfl, rfl⟩

/-- C5 witness: the amended theorem applied at the truthy instance 1. -/
theorem c5_truthy_singleton_single_activation_witness :
    Val.truthy (.prim 1) = true
      ∧ (resolveInNewScope 10 { scope := { registry := c5Registry (.prim 1) } }
              (.plain 50) .default
            = .ok (.prim 1, c5MidWorld (.prim 1))
          ∧ (resolveInNewScope 10 (c5MidWorld (.prim 1)) (.plain 50) .default).map
                (fun p => (p.1, p.2.activations))
              = .ok (.prim 1, [0])) :=
  ⟨rfl, c5_truthy_singleton_single_activation (.prim 1) rfl⟩

/-- C6: after `register_generic_subclasses` on open generic base A (60)
with subclass B (61) extending `A[int]`: resolving `A[int]` returns an
instance of B; resolving `A[str]` with no matching subclass and no fallback
raises a resolution error (and indeed no registration exists under
`A[str]` itself, so the lookup's retry against the unparameterized origin A
is what finds the fallback); with fallback type F (62) registered,
resolving `A[str]` returns an instance of F. -/
theorem c6_generic_subclass_round_trip :
    resolvedValue (scopeResolve 10
          { scope := { registry := c6Registry } } (.generic 60 601) .default)
        = .ok (.obj 61 [])
      ∧ isResolutionFailure (scopeResolve 10
            { scope := { registry := c6Registry } } (.generic 60 602) .default)
          = true
      ∧ chainFindRegistrations [{ registry := c6FallbackRegistry }]
            (.generic 60 602) .default = []
      ∧ resolvedValue (scopeResolve 10
            { scope := { registry := c6FallbackRegistry } } (.generic 60 602) .default)
          = .ok (.obj 62 []) :=
  ⟨rfl, rfl, rfl, rfl⟩

/-- C7: after three separate unnamed instance registrations for int (70)
with values 5, then 10, then 15, resolving `list[int]` returns exactly
`[15, 10, 5]` — collection elements follow most-recently-registered-first
order. -/
theorem c7_collection_most_recently_registered_first :
    resolvedValue (scopeResolve 10
        { scope := { registry := c7Registry } } (.listOf (.plain 70)) .default)
      = .ok (.coll [.prim 15, .prim 10, .prim 5]) :=
  rfl

/-- C8: for registrations with a cacheable lifespan whose activation
produces a falsy instance, every subsequent build treats the cache lookup
as a miss: the previously cached node is re-attached as a child of the new
parent (the `(2, 1)` resp. `(1, 2)` entries in the child log, referencing
the first build's node) and the implementation is then activated again
(duplicated registration ids in the activation log). Shown for singleton
(two resolves from two scopes), once_per_graph (two references within one
graph) and scoped (two resolves on one scope). -/
theorem c8_falsy_cached_instance_rebuilds (v : Val)
    (h : v.truthy = false) :
    resolveInNewScope 10 { scope := { registry := c8SingletonRegistry v } }
          (.plain 83) .default
        = .ok (v, c8SingletonMidWorld v)
      ∧ (resolveInNewScope 10 (c8SingletonMidWorld v) (.plain 83) .default).map
            (fun p => (p.1, p.2.activations, p.2.child_log))
          = .ok (v, [0, 0], [(0, 1), (2, 1), (2, 3)])
      ∧ (c8OncePerGraphRun v).map (fun p => (p.1, p.2.activations, p.2.child_log))
          = .ok (.obj 81 [v, v], [0, 0, 1], [(0, 1), (1, 2), (1, 2), (1, 3)])
      ∧ scopeResolve 10 { scope := { registry := c8ScopedRegistry v } }
            (.plain 85) .default
          = .ok (v, c8ScopedMidWorld v)
      ∧ (scopeResolve 10 (c8ScopedMidWorld v) (.plain 85) .default).map
            (fun p => (p.1, p.2.activations, p.2.child_log))
          = .ok (v, [0, 0], [(0, 1), (2, 1), (2, 3)]) := by
  cases v with
  | prim n =>
    cases n with
    | zero => exact ⟨rfl, rfl, rfl, rfl, rfl⟩
    | succ m => simp [Val.truthy] at h
  | obj c a => simp [Val.truthy] at h
  | wrap d i => simp [Val.truthy] at h
  | coll es =>
    cases es with
    | nil => exact ⟨rfl, rfl, rfl, rfl, rfl⟩
    | cons e es => simp [Val.truthy] at h

/-- C8 witness: the theorem applied at the falsy instance 0, exhibiting the
re-attach of node 1 under the new parent node 2 followed by the second
activation. -/
theorem c8_falsy_cached_instance_rebuilds_witness :
    Val.truthy (.prim 0) = false
      ∧ (resolveInNewScope 10 (c8SingletonMidWorld (.prim 0)) (.plain 83) .default).map
            (fun p => (p.1, p.2.activations, p.2.child_log))
          = .ok (.prim 0, [0, 0], [(0, 1), (2, 1), (2, 3)]) :=
  ⟨rfl, (c8_falsy_cached_instance_rebuilds (.prim 0) rfl).2.1⟩

/-- C9: a constructor/factory parameter that declares a default value
resolves, under the default dependency settings, to that default value
immediately, with the build state unchanged and without invoking any
lookup or build — the statement holds for every builder function and every
state, in particular for states whose registry contains a registration
matching the parameter's declared type, which is therefore not injected. -/
theorem c9_declared_default_short_circuits (nm pi : Nat) (t : Ty) (v : Val)
    (node : Nat) (st : BuildState)
    (build : Registration → Nat → BuildState → Except BuildError (Val × BuildState))
    (buildList :
      List Registration → Nat → BuildState → Except BuildError (List Val × BuildState)) :
    dependencyResolve build buildList
        { name := nm, parent_implementation := pi, service_type := t,
          default_value := some v }
        node st
      = .ok (v, st) :=
  rfl

/-- C10: `register(service_type, instance=obj, lifespan=l)` stores the
registration with lifespan scoped for every `l` other than singleton (and
singleton for singleton), so every instance registration's lifespan is
scoped or singleton; and `_DependencyCache.put` places the built node of
any such registration in a cache tier (the calling scope's scoped cache or
the container's singleton cache). -/
theorem c10_instance_registration_lifespan_coerced (t : Ty) (v : Val)
    (l : Lifespan) (r : Registration) (node : DNode) (st : BuildState) :
    (storedInstanceRegistration t v l).map (·.lifespan)
        = some (if l == Lifespan.singleton then Lifespan.singleton else Lifespan.scoped)
      ∧ ((if l == Lifespan.singleton then Lifespan.singleton else Lifespan.scoped)
            = Lifespan.scoped
          ∨ (if l == Lifespan.singleton then Lifespan.singleton else Lifespan.scoped)
            = Lifespan.singleton)
      ∧ (r.lifespan = Lifespan.scoped ∨ r.lifespan = Lifespan.singleton →
          lookupNode (cachePut r node st).scope.scoped_instances r.id = some node
            ∨ lookupNode (cachePut r node st).singletons r.id = some node) := by
  refine ⟨?_, ?_, ?_⟩
  · cases l <;> rfl
  · cases l <;> simp
  · intro hr
    cases hr with
    | inl hs =>
      left
      simp [cachePut, hs, lookupNode,
        show (Lifespan.scoped == Lifespan.singleton) = false from rfl,
        show (Lifespan.scoped == Lifespan.scoped) = true from rfl,
        show Lifespan.le Lifespan.once_per_graph Lifespan.scoped = true from rfl]
    | inr hs =>
      right
      simp [cachePut, hs, lookupNode,
        show (Lifespan.singleton == Lifespan.singleton) = true from rfl,
        show Lifespan.le Lifespan.once_per_graph Lifespan.singleton = true from rfl]

/-- C10 witness: the theorem's cache-tier implication applied to a stored
scoped instance registration. -/
theorem c10_instance_registration_lifespan_coerced_witness :
    (c10Reg.lifespan = Lifespan.scoped ∨ c10Reg.lifespan = Lifespan.singleton)
      ∧ (lookupNode (cachePut c10Reg c10Node c10St).scope.scoped_instances c10Reg.id
            = some c10Node
          ∨ lookupNode (cachePut c10Reg c10Node c10St).singletons c10Reg.id
            = some c10Node) :=
  ⟨Or.inl rfl,
    (c10_instance_registration_lifespan_coerced (.plain 90) (.prim 3)
        Lifespan.transient c10Reg c10Node c10St).2.2 (Or.inl rfl)⟩

end CleanIoc
